import Mathlib

/-!
Shallow embedding of the zMidiController application core
(src/MidiConsoleApplication/MidiConsoleApplication.cpp), covering the data
model (`ButtonFunction`, `JoystickStatus`, the joystick handle and the
`joystick_conf` vector) and the event handler `SDL_AppEvent`, together with
theorems checking the natural-language specification against it.
-/

/-- The `ButtonFunction` enumeration of the source (`NOTE`, `CC`). -/
inductive ButtonFunction where
  | NOTE
  | CC
deriving DecidableEq

/-- `struct JoystickStatus`: one button's configuration, with the C++ member
default initializers (`func = NOTE`, `channel = 0`, `value = 0`).
Channel and value are C++ `int`, embedded as `Int`. -/
structure JoystickStatus where
  func : ButtonFunction := .NOTE
  channel : Int := 0
  value : Int := 0
deriving DecidableEq

/-- `button_function_val(bf, release)`: the MIDI base status byte for a button
function, as in the source: NOTE press `0x90`, NOTE release `0x80`,
CC `0xB0` regardless of `release`. Returned as `unsigned char` in C++;
all results fit in a byte. -/
def button_function_val (bf : ButtonFunction) (release : Bool) : Nat :=
  match bf with
  | .NOTE => if release then 0x80 else 0x90
  | .CC => 0xB0

/-- The C++ implicit conversion `int -> unsigned char` applied by
`std::vector<unsigned char>::push_back`: reduction modulo 256. -/
def toByte (x : Int) : Nat := (x % 256).toNat

/-- The bytes pushed into `message` by the `SDL_EVENT_JOYSTICK_BUTTON_DOWN`
branch of `SDL_AppEvent` for a button configured as `js`:
`[button_function_val(func, false) + channel, value, 90]`. -/
def pressMessage (js : JoystickStatus) : List Nat :=
  let type_chn : Int := (button_function_val js.func false : Int) + js.channel
  [toByte type_chn, toByte js.value, 90]

/-- The bytes pushed into `message` by the `SDL_EVENT_JOYSTICK_BUTTON_UP`
branch of `SDL_AppEvent` for a button configured as `js`:
`[button_function_val(func, true) + channel, value]` (the third byte is
commented out in the source). -/
def releaseMessage (js : JoystickStatus) : List Nat :=
  let type_chn : Int := (button_function_val js.func true : Int) + js.channel
  [toByte type_chn, toByte js.value]

/-- A joystick device as seen through SDL: its stable instance id
(`SDL_GetJoystickID`) and its reported button count
(`SDL_GetNumJoystickButtons` on the open handle). -/
structure Controller where
  id : Nat
  numButtons : Nat
deriving DecidableEq

/-- The mutable global state the event handler touches: the single
`SDL_Joystick* joystick` handle (`none` models `NULL`) and the
`std::vector<JoystickStatus> joystick_conf`. -/
structure AppState where
  joystick : Option Controller := none
  joystick_conf : List JoystickStatus := []
deriving DecidableEq

/-- The initial global state: `joystick == NULL`, `joystick_conf` empty. -/
def initState : AppState := {}

/-- `SDL_GetNumJoystickButtons` as called in the attach branch: `-1` on a
`NULL` handle (SDL failure), the device's button count otherwise. -/
def getNumJoystickButtons : Option Controller → Int
  | none => -1
  | some c => (c.numButtons : Int)

/-- The return values of `SDL_AppEvent` used by the source. -/
inductive AppResult where
  | SDL_APP_CONTINUE
  | SDL_APP_SUCCESS
deriving DecidableEq

/-- The events `SDL_AppEvent` dispatches on. An added event carries the
device being reported and whether `SDL_OpenJoystick` succeeds for it
(the environment decides that); a removed event carries
`event->jdevice.which`; button events carry `event->jbutton.button`
(a `Uint8`, hence a `Nat`). -/
inductive SDL_Event where
  | quit
  | joystickAdded (dev : Controller) (openOk : Bool)
  | joystickRemoved (which : Nat)
  | joystickButtonDown (button : Nat)
  | joystickButtonUp (button : Nat)
deriving DecidableEq

/-- Everything observable about one call to `SDL_AppEvent`: the global state
afterwards, the returned `SDL_AppResult`, the messages passed to
`midi_out->sendMessage` (in order), whether the failed-open log line ran,
and whether the call performed an out-of-bounds `joystick_conf[...]`
access — which in C++ is undefined behavior; when that flag is set the
recorded state and sent messages only reflect the code as written up to
that access. -/
structure EventOutcome where
  state : AppState
  result : AppResult
  sent : List (List Nat)
  loggedOpenError : Bool
  oobAccess : Bool
deriving DecidableEq

/-- `SDL_AppEvent`, lines 243–295 of the source, restricted to the branches
that touch engine state.

* `SDL_EVENT_JOYSTICK_ADDED`: only when `joystick == NULL`, open the device
  (the handle stays `NULL` and the failure is logged when the open fails),
  then push one default `JoystickStatus` per reported button
  (`SDL_GetNumJoystickButtons` returns `-1` on the `NULL` handle, so the
  loop body never runs in that case).
* `SDL_EVENT_JOYSTICK_REMOVED`: only when the id matches the open handle,
  close it, set it to `NULL` and clear `joystick_conf`.
* `SDL_EVENT_JOYSTICK_BUTTON_DOWN` / `..._UP`: read
  `joystick_conf[button_id]` with no bounds check — out of bounds this is
  undefined behavior, recorded in `oobAccess` — and send the press
  (3-byte) or release (2-byte) message. -/
def SDL_AppEvent (s : AppState) (event : SDL_Event) : EventOutcome :=
  match event with
  | .quit =>
      { state := s, result := .SDL_APP_SUCCESS, sent := [],
        loggedOpenError := false, oobAccess := false }
  | .joystickAdded dev openOk =>
      match s.joystick with
      | none =>
          let j : Option Controller := if openOk then some dev else none
          let button_count : Int := getNumJoystickButtons j
          { state :=
              { joystick := j,
                joystick_conf :=
                  s.joystick_conf ++
                    List.replicate button_count.toNat ({} : JoystickStatus) },
            result := .SDL_APP_CONTINUE, sent := [],
            loggedOpenError := !openOk, oobAccess := false }
      | some _ =>
          { state := s, result := .SDL_APP_CONTINUE, sent := [],
            loggedOpenError := false, oobAccess := false }
  | .joystickRemoved which =>
      match s.joystick with
      | some c =>
          if c.id = which then
            { state := { joystick := none, joystick_conf := [] },
              result := .SDL_APP_CONTINUE, sent := [],
              loggedOpenError := false, oobAccess := false }
          else
            { state := s, result := .SDL_APP_CONTINUE, sent := [],
              loggedOpenError := false, oobAccess := false }
      | none =>
          { state := s, result := .SDL_APP_CONTINUE, sent := [],
            loggedOpenError := false, oobAccess := false }
  | .joystickButtonDown button_id =>
      match s.joystick_conf.get? button_id with
      | some js =>
          { state := s, result := .SDL_APP_CONTINUE,
            sent := [pressMessage js],
            loggedOpenError := false, oobAccess := false }
      | none =>
          { state := s, result := .SDL_APP_CONTINUE, sent := [],
            loggedOpenError := false, oobAccess := true }
  | .joystickButtonUp button_id =>
      match s.joystick_conf.get? button_id with
      | some js =>
          { state := s, result := .SDL_APP_CONTINUE,
            sent := [releaseMessage js],
            loggedOpenError := false, oobAccess := false }
      | none =>
          { state := s, result := .SDL_APP_CONTINUE, sent := [],
            loggedOpenError := false, oobAccess := true }

/-- One event's effect on the global state. -/
def stepEvent (s : AppState) (e : SDL_Event) : AppState :=
  (SDL_AppEvent s e).state

/-- The global state after a sequence of events starting from `initState`. -/
def runEvents (es : List SDL_Event) : AppState :=
  es.foldl stepEvent initState

/-- The store-length invariant of the specification: `joystick_conf` is empty
when no joystick is open and has exactly the reported button count of the
open joystick otherwise. -/
def storeInv (s : AppState) : Prop :=
  match s.joystick with
  | some c => s.joystick_conf.length = c.numButtons
  | none => s.joystick_conf = []

example : pressMessage { func := .CC, channel := 3, value := 20 } = [0xB3, 20, 90] := by decide
example : releaseMessage { func := .CC, channel := 3, value := 20 } = [0xB3, 20] := by decide
example : pressMessage { func := .NOTE, channel := 2, value := 60 } = [0x92, 60, 90] := by decide
example : releaseMessage { func := .NOTE, channel := 2, value := 60 } = [0x82, 60] := by decide
example :
    (runEvents [.joystickAdded ⟨1, 8⟩ true]).joystick_conf.length = 8 := by decide
example :
    (SDL_AppEvent (runEvents [.joystickAdded ⟨1, 8⟩ true]) (.joystickButtonDown 8)).oobAccess
      = true := by decide

theorem toByte_of_bounds (x : Int) (h0 : 0 ≤ x) (h : x < 256) :
    toByte x = x.toNat := by
  unfold toByte; omega

theorem toByte_base_add (base : Nat) (c : Int) (hb : base ≤ 240)
    (hc0 : 0 ≤ c) (hc : c ≤ 15) :
    toByte ((base : Int) + c) = base + c.toNat := by
  unfold toByte; omega

theorem land_nibbles (n : Nat) (hn : n ≤ 15) :
    ((0x90 + n) &&& 0x0F = n ∧ (0x90 + n) &&& 0xF0 = 0x90) ∧
    ((0xB0 + n) &&& 0x0F = n ∧ (0xB0 + n) &&& 0xF0 = 0xB0) := by
  interval_cases n <;> decide

/-- C3: for channel in [0,15] and value in [0,127], the status byte (first
byte) of the press message has low nibble equal to the channel and high
nibble 0x90 for NOTE and 0xB0 for CONTROL_CHANGE, and equals the base
status plus the channel (the channel is combined by addition). -/
theorem press_status_byte (js : JoystickStatus)
    (hc0 : 0 ≤ js.channel) (hc : js.channel ≤ 15)
    (hv0 : 0 ≤ js.value) (hv : js.value ≤ 127) :
    (pressMessage js).headI &&& 0x0F = js.channel.toNat ∧
    (pressMessage js).headI &&& 0xF0
      = (if js.func = .NOTE then 0x90 else 0xB0) ∧
    (pressMessage js).headI
      = (if js.func = .NOTE then 0x90 else 0xB0) + js.channel.toNat := by
  obtain ⟨f, c, v⟩ := js
  simp only at hc0 hc hv0 hv
  have hn : c.toNat ≤ 15 := by omega
  cases f with
  | NOTE =>
      have hb : toByte ((button_function_val ButtonFunction.NOTE false : Int) + c)
          = 0x90 + c.toNat := by
        simp only [button_function_val, Bool.false_eq_true, if_false, toByte]
        omega
      simp only [pressMessage, List.headI, hb, if_pos rfl]
      exact ⟨(land_nibbles c.toNat hn).1.1, (land_nibbles c.toNat hn).1.2, rfl⟩
  | CC =>
      have hb : toByte ((button_function_val ButtonFunction.CC false : Int) + c)
          = 0xB0 + c.toNat := by
        simp only [button_function_val, toByte]
        omega
      simp only [pressMessage, List.headI, hb,
        if_neg (show ¬(ButtonFunction.CC = ButtonFunction.NOTE) by decide)]
      exact ⟨(land_nibbles c.toNat hn).2.1, (land_nibbles c.toNat hn).2.2, by simp⟩

theorem toByte_value (v : Int) (hv0 : 0 ≤ v) (hv : v ≤ 127) :
    toByte v = v.toNat := by
  unfold toByte; omega

/-- C4: for NOTE with channel in [0,15] and value in [0,127], the press
message is exactly `[0x90 + channel, value, 90]` and the release message
exactly `[0x80 + channel, value]`; moreover in every encoded message
(either function, press or release) the second byte is the configured
value. -/
theorem note_message_layout (js : JoystickStatus)
    (hc0 : 0 ≤ js.channel) (hc : js.channel ≤ 15)
    (hv0 : 0 ≤ js.value) (hv : js.value ≤ 127) :
    (js.func = .NOTE →
      pressMessage js = [0x90 + js.channel.toNat, js.value.toNat, 90] ∧
      releaseMessage js = [0x80 + js.channel.toNat, js.value.toNat]) ∧
    (pressMessage js).get? 1 = some js.value.toNat ∧
    (releaseMessage js).get? 1 = some js.value.toNat := by
  obtain ⟨f, c, v⟩ := js
  simp only at hc0 hc hv0 hv
  refine ⟨?_, ?_, ?_⟩
  · intro hf
    simp only at hf
    subst hf
    simp only [pressMessage, releaseMessage, button_function_val,
      Bool.false_eq_true, if_false, eq_self_iff_true, if_true]
    rw [toByte_base_add 0x90 c (by norm_num) hc0 hc,
      toByte_base_add 0x80 c (by norm_num) hc0 hc,
      toByte_value v hv0 hv]
    exact ⟨rfl, rfl⟩
  · simp only [pressMessage, List.get?, toByte_value v hv0 hv]
  · simp only [releaseMessage, List.get?, toByte_value v hv0 hv]

/-- C2 counterexample: with button 2 configured as
{CONTROL_CHANGE, channel = 3, value = 20}, pressing button 2 sends the
3-byte message `[0xB3, 20, 90]` — not the 2-byte `[0xB3, 20]` the claim
states. -/
def ccDemoState : AppState :=
  { joystick := some ⟨1, 4⟩,
    joystick_conf := [{}, {}, { func := .CC, channel := 3, value := 20 }, {}] }

/-- C2 is false as stated: the CONTROL_CHANGE press message for
channel 3, value 20 is `[0xB3, 20, 90]` (three bytes, velocity byte
included), not the claimed two-byte `[0xB3, 20]`. -/
theorem cc_press_not_two_bytes :
    (SDL_AppEvent ccDemoState (.joystickButtonDown 2)).sent = [[0xB3, 20, 90]] ∧
    (SDL_AppEvent ccDemoState (.joystickButtonDown 2)).sent ≠ [[0xB3, 20]] ∧
    (pressMessage { func := .CC, channel := 3, value := 20 }).length ≠ 2 := by
  decide

/-- C2 amended: for CONTROL_CHANGE with channel in [0,15] and value in
[0,127], the press message is exactly the 3 bytes
`[0xB0 + channel, value, 90]` — the fixed velocity byte is present. -/
theorem cc_press_message (js : JoystickStatus) (hf : js.func = .CC)
    (hc0 : 0 ≤ js.channel) (hc : js.channel ≤ 15)
    (hv0 : 0 ≤ js.value) (hv : js.value ≤ 127) :
    pressMessage js = [0xB0 + js.channel.toNat, js.value.toNat, 90] ∧
    (pressMessage js).length = 3 := by
  obtain ⟨f, c, v⟩ := js
  simp only at hf hc0 hc hv0 hv
  subst hf
  simp only [pressMessage, button_function_val, List.length]
  rw [toByte_base_add 0xB0 c (by norm_num) hc0 hc, toByte_value v hv0 hv]
  exact ⟨rfl, by trivial⟩

/-- C10: an in-bounds button-release notification always sends exactly the
release message for the button's configuration, whatever its function;
for CONTROL_CHANGE the release message is the 2 bytes
`[0xB0 + channel, value]`, with the same status byte as the CC press
message and the configured value unchanged. -/
theorem release_in_bounds_sends (s : AppState) (i : Nat) (js : JoystickStatus)
    (h : s.joystick_conf.get? i = some js)
    (hc0 : 0 ≤ js.channel) (hc : js.channel ≤ 15)
    (hv0 : 0 ≤ js.value) (hv : js.value ≤ 127) :
    (SDL_AppEvent s (.joystickButtonUp i)).sent = [releaseMessage js] ∧
    (js.func = .CC →
      releaseMessage js = [0xB0 + js.channel.toNat, js.value.toNat] ∧
      (releaseMessage js).length = 2 ∧
      (releaseMessage js).headI = (pressMessage js).headI) := by
  refine ⟨by simp only [SDL_AppEvent, h], ?_⟩
  intro hf
  obtain ⟨f, c, v⟩ := js
  simp only at hf hc0 hc hv0 hv
  subst hf
  refine ⟨?_, rfl, ?_⟩
  · simp only [releaseMessage, button_function_val]
    rw [toByte_base_add 0xB0 c (by norm_num) hc0 hc, toByte_value v hv0 hv]
  · simp only [releaseMessage, pressMessage, button_function_val, List.headI]

/-- C1 is violated by the code: a button event whose index is out of the
store's bounds is not dropped — the handler indexes `joystick_conf`
unconditionally. Press or release of button 8 when the store has 8
entries (indices 0–7), and press of button 0 with no controller attached
(empty store), all reach the out-of-bounds access. -/
theorem oob_button_event_not_dropped :
    (SDL_AppEvent (runEvents [.joystickAdded ⟨1, 8⟩ true])
        (.joystickButtonDown 8)).oobAccess = true ∧
    (SDL_AppEvent (runEvents [.joystickAdded ⟨1, 8⟩ true])
        (.joystickButtonUp 8)).oobAccess = true ∧
    (SDL_AppEvent initState (.joystickButtonDown 0)).oobAccess = true := by
  decide

/-- C5: an attach notification that arrives while a controller is already
active is a no-op — the whole outcome is the unchanged state, no message,
no log — for the same or any other device and whether or not its open
would succeed. -/
theorem attach_while_active_noop (s : AppState) (c : Controller)
    (h : s.joystick = some c) (dev : Controller) (ok : Bool) :
    SDL_AppEvent s (.joystickAdded dev ok)
      = { state := s, result := .SDL_APP_CONTINUE, sent := [],
          loggedOpenError := false, oobAccess := false } := by
  simp only [SDL_AppEvent, h]

theorem attach_while_active_noop_witness :
    SDL_AppEvent (runEvents [.joystickAdded ⟨1, 8⟩ true]) (.joystickAdded ⟨2, 4⟩ true)
      = { state := runEvents [.joystickAdded ⟨1, 8⟩ true],
          result := .SDL_APP_CONTINUE, sent := [],
          loggedOpenError := false, oobAccess := false } :=
  attach_while_active_noop (runEvents [.joystickAdded ⟨1, 8⟩ true]) ⟨1, 8⟩
    (by decide) ⟨2, 4⟩ true

theorem storeInv_stepEvent (s : AppState) (e : SDL_Event) (h : storeInv s) :
    storeInv (stepEvent s e) := by
  obtain ⟨j, conf⟩ := s
  cases e with
  | quit => exact h
  | joystickAdded dev ok =>
      cases j with
      | none =>
          have hconf : conf = [] := h
          cases ok <;>
            simp [stepEvent, SDL_AppEvent, storeInv, getNumJoystickButtons, hconf]
      | some c => exact h
  | joystickRemoved which =>
      cases j with
      | none => exact h
      | some c =>
          by_cases hid : c.id = which <;>
            simp only [stepEvent, SDL_AppEvent, if_pos, if_neg, hid] <;>
            first
              | exact rfl
              | exact h
  | joystickButtonDown b =>
      cases hg : conf.get? b <;>
        simp only [stepEvent, SDL_AppEvent, hg] <;> exact h
  | joystickButtonUp b =>
      cases hg : conf.get? b <;>
        simp only [stepEvent, SDL_AppEvent, hg] <;> exact h

theorem storeInv_foldl (s : AppState) (h : storeInv s) (es : List SDL_Event) :
    storeInv (es.foldl stepEvent s) := by
  induction es generalizing s with
  | nil => exact h
  | cons e es ih => exact ih (stepEvent s e) (storeInv_stepEvent s e h)

theorem storeInv_runEvents (es : List SDL_Event) : storeInv (runEvents es) :=
  storeInv_foldl initState rfl es

/-- C6: in every state reachable from the initial state by a sequence of
events, the length of `joystick_conf` equals the open controller's
reported button count, and zero when no controller is open. -/
theorem store_length_matches_buttons (es : List SDL_Event) :
    (runEvents es).joystick_conf.length =
      match (runEvents es).joystick with
      | some c => c.numButtons
      | none => 0 := by
  have h := storeInv_runEvents es
  unfold storeInv at h
  cases hj : (runEvents es).joystick with
  | none => rw [hj] at h; simp [h]
  | some c => rw [hj] at h; exact h

/-- C7: a detach notification releases the handle and empties the store
exactly when its device id matches the open controller's id; a
non-matching detach, or a detach with no controller open, changes no
state. -/
theorem detach_state_change (s : AppState) (which : Nat) :
    (SDL_AppEvent s (.joystickRemoved which)).state =
      if s.joystick.map Controller.id = some which
      then { joystick := none, joystick_conf := [] }
      else s := by
  obtain ⟨j, conf⟩ := s
  cases j with
  | none => simp [SDL_AppEvent]
  | some c => by_cases hid : c.id = which <;> simp [SDL_AppEvent, hid]

/-- C8: a successful attach of a device reporting `n` buttons from the
no-controller state (where the store is empty) leaves the store equal to
`n` copies of the default config {NOTE, channel 0, value 0}. -/
theorem attach_from_none (s : AppState) (dev : Controller)
    (hj : s.joystick = none) (hconf : s.joystick_conf = []) :
    (SDL_AppEvent s (.joystickAdded dev true)).state.joystick_conf
      = List.replicate dev.numButtons { func := .NOTE, channel := 0, value := 0 } ∧
    (SDL_AppEvent s (.joystickAdded dev true)).state.joystick_conf.length
      = dev.numButtons ∧
    (SDL_AppEvent s (.joystickAdded dev true)).state.joystick = some dev := by
  obtain ⟨j, conf⟩ := s
  simp only at hj hconf
  subst hj hconf
  simp [SDL_AppEvent, getNumJoystickButtons]

theorem attach_from_none_witness :
    (SDL_AppEvent initState (.joystickAdded ⟨7, 8⟩ true)).state.joystick_conf
      = List.replicate 8 { func := .NOTE, channel := 0, value := 0 } ∧
    (SDL_AppEvent initState (.joystickAdded ⟨7, 8⟩ true)).state.joystick_conf.length
      = 8 ∧
    (SDL_AppEvent initState (.joystickAdded ⟨7, 8⟩ true)).state.joystick
      = some ⟨7, 8⟩ :=
  attach_from_none initState ⟨7, 8⟩ rfl rfl

/-- C9: when the device open fails during an attach from the no-controller
state, the call leaves the state (handle and store) exactly as it was,
logs the failure, stays non-fatal (returns continue), and a later attach
can still succeed and install its device. -/
theorem attach_open_fail (s : AppState) (dev dev2 : Controller)
    (hj : s.joystick = none) :
    (SDL_AppEvent s (.joystickAdded dev false)).state = s ∧
    (SDL_AppEvent s (.joystickAdded dev false)).loggedOpenError = true ∧
    (SDL_AppEvent s (.joystickAdded dev false)).result = .SDL_APP_CONTINUE ∧
    (SDL_AppEvent (SDL_AppEvent s (.joystickAdded dev false)).state
        (.joystickAdded dev2 true)).state.joystick = some dev2 := by
  obtain ⟨j, conf⟩ := s
  simp only at hj
  subst hj
  simp [SDL_AppEvent, getNumJoystickButtons]

theorem attach_open_fail_witness :
    (SDL_AppEvent initState (.joystickAdded ⟨3, 5⟩ false)).state = initState ∧
    (SDL_AppEvent initState (.joystickAdded ⟨3, 5⟩ false)).loggedOpenError = true ∧
    (SDL_AppEvent initState (.joystickAdded ⟨3, 5⟩ false)).result
      = .SDL_APP_CONTINUE ∧
    (SDL_AppEvent (SDL_AppEvent initState (.joystickAdded ⟨3, 5⟩ false)).state
        (.joystickAdded ⟨4, 6⟩ true)).state.joystick = some ⟨4, 6⟩ :=
  attach_open_fail initState ⟨3, 5⟩ ⟨4, 6⟩ rfl

theorem press_status_byte_witness :
    (pressMessage { func := .NOTE, channel := 5, value := 10 }).headI &&& 0x0F = 5 ∧
    (pressMessage { func := .NOTE, channel := 5, value := 10 }).headI &&& 0xF0 = 0x90 ∧
    (pressMessage { func := .NOTE, channel := 5, value := 10 }).headI = 0x95 :=
  press_status_byte { func := .NOTE, channel := 5, value := 10 }
    (by decide) (by decide) (by decide) (by decide)

theorem note_message_layout_witness :
    (({ func := .NOTE, channel := 2, value := 60 } : JoystickStatus).func = .NOTE →
      pressMessage { func := .NOTE, channel := 2, value := 60 } = [0x92, 60, 90] ∧
      releaseMessage { func := .NOTE, channel := 2, value := 60 } = [0x82, 60]) ∧
    (pressMessage { func := .NOTE, channel := 2, value := 60 }).get? 1 = some 60 ∧
    (releaseMessage { func := .NOTE, channel := 2, value := 60 }).get? 1 = some 60 :=
  note_message_layout { func := .NOTE, channel := 2, value := 60 }
    (by decide) (by decide) (by decide) (by decide)

theorem cc_press_message_witness :
    pressMessage { func := .CC, channel := 3, value := 20 } = [0xB3, 20, 90] ∧
    (pressMessage { func := .CC, channel := 3, value := 20 }).length = 3 :=
  cc_press_message { func := .CC, channel := 3, value := 20 }
    (by decide) (by decide) (by decide) (by decide) (by decide)

theorem release_in_bounds_sends_witness :
    (SDL_AppEvent ccDemoState (.joystickButtonUp 2)).sent
      = [releaseMessage { func := .CC, channel := 3, value := 20 }] ∧
    (({ func := .CC, channel := 3, value := 20 } : JoystickStatus).func = .CC →
      releaseMessage { func := .CC, channel := 3, value := 20 } = [0xB3, 20] ∧
      (releaseMessage { func := .CC, channel := 3, value := 20 }).length = 2 ∧
      (releaseMessage { func := .CC, channel := 3, value := 20 }).headI
        = (pressMessage { func := .CC, channel := 3, value := 20 }).headI) :=
  release_in_bounds_sends ccDemoState 2 { func := .CC, channel := 3, value := 20 }
    (by decide) (by decide) (by decide) (by decide) (by decide)
